import Mathlib

/-!
Verification of the OpenBridge endpoint-to-tool synthesis pipeline.

This file embeds the core functions of the OpenBridge repository
(`src/OpenBridge/tools/api.py`, `src/OpenBridge/tools/analysis.py`,
`src/OpenBridge/tools/files.py`) as executable Lean definitions and proves
or refutes the specification claims about them.

Python strings are modelled as `List Char`; Python dictionaries as
association lists (keys unique in all inputs of interest, lookups take
the first match exactly as a dict would); JSON values as an inductive
type; Python exceptions as `Except`.
-/

namespace OpenBridge

abbrev Str := List Char

/-- Python `str.replace(pat, repl)` with explicit fuel: scans left to right,
replaces non-overlapping occurrences, continues after the replacement.
`fuel = s.length` is sufficient for every non-empty pattern, since each
step consumes at least one character of the remaining string. -/
def pyReplaceFuel (pat repl : Str) : Nat → Str → Str
  | 0, s => s
  | _ + 1, [] => []
  | fuel + 1, c :: rest =>
    if pat.isPrefixOf (c :: rest) then
      repl ++ pyReplaceFuel pat repl fuel (List.drop pat.length (c :: rest))
    else
      c :: pyReplaceFuel pat repl fuel rest

/-- Python `s.replace(pat, repl)` for a non-empty pattern `pat`. -/
def pyReplace (pat repl s : Str) : Str :=
  pyReplaceFuel pat repl s.length s

/-- Python `str.lower` (all strings in play are ASCII). -/
def pyLower (s : Str) : Str := s.map Char.toLower

/-- Python `str.upper` (all strings in play are ASCII). -/
def pyUpper (s : Str) : Str := s.map Char.toUpper

/-- Python `str.lstrip(c)`: drop every leading occurrence of `c`. -/
def pyLstrip (c : Char) (s : Str) : Str := s.dropWhile (· = c)

/-- `normalize_tool_name` from `tools/api.py`: builds the tool identifier
from `f"{method.lower()} {path}"` by the chain of `str.replace` calls and
a final `lstrip("_")`, exactly in source order. -/
def normalize_tool_name (method path : Str) : Str :=
  pyLstrip '_'
    (pyReplace ['_', '_'] ['_']
      (pyReplace ['-'] ['_']
        (pyReplace ['}'] []
          (pyReplace ['{'] []
            (pyReplace ['/'] ['_']
              (pyReplace [' '] ['_']
                (pyLower method ++ ' ' :: path)))))))

/-- Replace every occurrence of the character `a` by `b`
(Python `str.replace` with a single-character pattern and replacement). -/
def replaceChar (a b : Char) (s : Str) : Str :=
  s.map fun c => if c = a then b else c

/-- Delete every occurrence of the character `a`
(Python `str.replace(a, "")` with a single-character pattern). -/
def removeChar (a : Char) (s : Str) : Str :=
  s.filter fun c => c != a

/-- One left-to-right pass replacing each non-overlapping `"__"` by `"_"`,
the exact effect of Python's `s.replace("__", "_")`. -/
def squeezeUnderscorePass : Str → Str
  | '_' :: '_' :: rest => '_' :: squeezeUnderscorePass rest
  | c :: rest => c :: squeezeUnderscorePass rest
  | [] => []

/-- Collapse every maximal run of underscores to a single underscore
(the reading of the claim under which no `"__"` remains in the output).
The Boolean records whether the previous kept character was an underscore. -/
def collapseAux : Bool → Str → Str
  | _, [] => []
  | prevU, c :: rest =>
    if c = '_' then
      if prevU then collapseAux true rest
      else '_' :: collapseAux true rest
    else
      c :: collapseAux false rest

/-- Full collapse of consecutive underscores, as the claim words it. -/
def collapseUnderscores (s : Str) : Str := collapseAux false s

/-- The algorithm exactly as the claim states it: lower-case the whole
formed string (path letters included) and collapse consecutive
underscores until no double underscore remains. -/
def claimDeriveName (method path : Str) : Str :=
  pyLstrip '_'
    (collapseUnderscores
      (replaceChar '-' '_'
        (removeChar '}'
          (removeChar '{'
            (replaceChar '/' '_'
              (replaceChar ' ' '_'
                (pyLower (method ++ ' ' :: path))))))))

/-- The amended algorithm: only the method is lower-cased (the path's
letter case is preserved) and the double-underscore replacement is a
single left-to-right pass, so consecutive underscores can survive. -/
def amendedDeriveName (method path : Str) : Str :=
  pyLstrip '_'
    (squeezeUnderscorePass
      (replaceChar '-' '_'
        (removeChar '}'
          (removeChar '{'
            (replaceChar '/' '_'
              (replaceChar ' ' '_'
                (pyLower method ++ ' ' :: path)))))))

/-! ## JSON values and Python dictionary primitives -/

-- JSON values, as produced by `response.json()` and traversed by the
-- registration pipeline. Python dicts keep insertion order, modelled by
-- the field list; keys are unique in every document of interest. The
-- array and field sequences are mutually inductive with `Json` so that
-- every function on documents is structurally recursive and evaluable.
mutual
inductive Json where
  | null
  | bool (b : Bool)
  | num (n : Int)
  | str (s : Str)
  | arr (elems : JsonList)
  | obj (fields : JsonFields)
inductive JsonList where
  | nil
  | cons (hd : Json) (tl : JsonList)
inductive JsonFields where
  | nil
  | cons (key : Str) (val : Json) (tl : JsonFields)
end

def JsonList.toList : JsonList → List Json
  | .nil => []
  | .cons j rest => j :: rest.toList

def JsonFields.toList : JsonFields → List (Str × Json)
  | .nil => []
  | .cons k v rest => (k, v) :: rest.toList

def JsonList.ofList : List Json → JsonList
  | [] => .nil
  | j :: rest => .cons j (JsonList.ofList rest)

def JsonFields.ofList : List (Str × Json) → JsonFields
  | [] => .nil
  | (k, v) :: rest => .cons k v (JsonFields.ofList rest)

/-- A JSON array literal. -/
def Json.mkArr (elems : List Json) : Json := .arr (JsonList.ofList elems)

/-- A JSON object literal. -/
def Json.mkObj (fields : List (Str × Json)) : Json :=
  .obj (JsonFields.ofList fields)

/-- Python substring containment, `pat in s`. -/
def pyIn (pat : Str) : Str → Bool
  | [] => pat.isEmpty
  | c :: rest => pat.isPrefixOf (c :: rest) || pyIn pat rest

/-! The dictionary keys and string constants the pipeline reads. -/

def pathsKey : Str := ( "paths").toList

def responsesKey : Str := ( "responses").toList

def contentKey : Str := ( "content").toList

def parametersKey : Str := ( "parameters").toList

def inKey : Str := ( "in").toList

def nameKey : Str := ( "name").toList

def summaryKey : Str := ( "summary").toList

def descriptionKey : Str := ( "description").toList

def pathLoc : Str := ( "path").toList

def getLit : Str := ( "GET").toList

/-- Stand-ins for the Python exceptions the pipeline can raise; an
`Except.error` carrying one of these models the exception propagating. -/
def pyAttributeError : Str := ( "AttributeError").toList

def pyKeyError : Str := ( "KeyError").toList

def pyTypeError : Str := ( "TypeError").toList

/-- Python `d.get(key, default)`: AttributeError when the receiver is not
a dict (this is exactly what `spec.get("paths", {})` does on a list). -/
def pyGetD (j : Json) (key : Str) (dflt : Json) : Except Str Json :=
  match j with
  | .obj fields => .ok ((fields.toList.lookup key).getD dflt)
  | _ => .error pyAttributeError

/-- Python `d[key]`: KeyError for a missing key, TypeError when the
receiver is not subscriptable. -/
def pyIndexKey (j : Json) (key : Str) : Except Str Json :=
  match j with
  | .obj fields =>
    match fields.toList.lookup key with
    | some v => .ok v
    | none => .error pyKeyError
  | _ => .error pyTypeError

/-- Python `d.values()`. -/
def pyValues (j : Json) : Except Str (List Json) :=
  match j with
  | .obj fields => .ok (fields.toList.map Prod.snd)
  | _ => .error pyAttributeError

/-- Python `d.keys()`. -/
def pyKeys (j : Json) : Except Str (List Str) :=
  match j with
  | .obj fields => .ok (fields.toList.map Prod.fst)
  | _ => .error pyAttributeError

/-- Python `d.items()`. -/
def pyItems (j : Json) : Except Str (List (Str × Json)) :=
  match j with
  | .obj fields => .ok fields.toList
  | _ => .error pyAttributeError

/-- Iterating a JSON value as a Python list. Everything the source
iterates this way (`operation.get("parameters", [])`) is an array in the
documents of interest; iterating anything else is reported as an error. -/
def pyElems (j : Json) : Except Str (List Json) :=
  match j with
  | .arr elems => .ok elems.toList
  | _ => .error pyTypeError

/-- Python truthiness of a JSON value (`if spec:`, `if not path_item:`). -/
def pyTruthy : Json → Bool
  | .null => false
  | .bool b => b
  | .num n => n != 0
  | .str s => !s.isEmpty
  | .arr .nil => false
  | .arr (.cons _ _) => true
  | .obj .nil => false
  | .obj (.cons _ _ _) => true

def lbrace : Char := Char.ofNat 123

def rbrace : Char := Char.ofNat 125

def squote : Char := Char.ofNat 39

def intStr (n : Int) : Str := (toString n).toList

def natStr (n : Nat) : Str := (Nat.repr n).toList

/-- Comma-and-space separated concatenation, as Python renders
list and dict contents. -/
def commaJoin : List Str → Str
  | [] => []
  | [s] => s
  | s :: rest => s ++ ',' :: ' ' :: commaJoin rest

-- Python `repr` of a JSON value (with the renderings of `None`, `True`,
-- `False` and single-quoted strings that Python uses).
mutual
def pyRepr : Json → Str
  | .null => ( "None").toList
  | .bool true => ( "True").toList
  | .bool false => ( "False").toList
  | .num n => intStr n
  | .str s => squote :: s ++ [squote]
  | .arr elems => '[' :: commaJoin (pyReprList elems) ++ [']']
  | .obj fields => lbrace :: commaJoin (pyReprFields fields) ++ [rbrace]
def pyReprList : JsonList → List Str
  | .nil => []
  | .cons j rest => pyRepr j :: pyReprList rest
def pyReprFields : JsonFields → List Str
  | .nil => []
  | .cons k v rest =>
    (squote :: k ++ squote :: ':' :: ' ' :: pyRepr v) :: pyReprFields rest
end

/-- Python `str()` of a value (used for path-parameter substitution and
f-string interpolation): a string renders as itself, everything else as
its `repr`. -/
def pyStr : Json → Str
  | .str s => s
  | v => pyRepr v

/-- `j == "s"` in Python: true only for the equal JSON string. -/
def isStrEq (j : Json) (s : Str) : Bool :=
  match j with
  | .str t => t == s
  | _ => false

/-! ## Endpoint filter and registration pass (`tools/api.py`) -/

/-- `settings.excluded_endpoint_patterns` default from `config.py`. -/
def excluded_endpoint_patterns : List Str :=
  [( "stream").toList, ( "webpage").toList]

/-- The marker substring identifying the one binary endpoint the executor
handles specially. -/
def downloadImageMarker : Str := ( "download-image").toList

/-- True when the content type begins with `image/`,
`application/octet-stream` or `application/pdf`. -/
def isBinaryMime (m : Str) : Bool :=
  ( "image/").toList.isPrefixOf m ||
  ( "application/octet-stream").toList.isPrefixOf m ||
  ( "application/pdf").toList.isPrefixOf m

/-- The response loop of `should_register_endpoint`: reject (`false`) on
the first response declaring a binary content type while the path lacks
the `download-image` marker. -/
def scanResponses (path : Str) : List Json → Except Str Bool
  | [] => .ok true
  | r :: rs => do
    let content ← pyGetD r contentKey (Json.mkObj [])
    let mimes ← pyKeys content
    if mimes.any isBinaryMime && !(pyIn downloadImageMarker path) then
      .ok false
    else
      scanResponses path rs

/-- `should_register_endpoint` from `tools/api.py`: excluded-pattern
denylist on the lower-cased path, then the binary-response scan.
(`method` is only logged by the source.) -/
def should_register_endpoint (path method : Str) (operation : Json) :
    Except Str Bool :=
  if excluded_endpoint_patterns.any (fun pat => pyIn pat (pyLower path)) then
    .ok false
  else do
    let responses ← pyGetD operation responsesKey (Json.mkObj [])
    let vals ← pyValues responses
    scanResponses path vals

/-- The methods the registration loop accepts. -/
def allowedMethods : List Str :=
  [( "get").toList, ( "post").toList, ( "put").toList,
   ( "delete").toList, ( "patch").toList]

/-- The docstring built for a registered tool:
`f"{summary}\n\n{description}\n\n(This tool calls: {method.upper()} {path})"`. -/
def buildDocstring (method path : Str) (operation : Json) : Except Str Str := do
  let summary ← pyGetD operation summaryKey (.str [])
  let description ← pyGetD operation descriptionKey (.str [])
  .ok (pyStr summary ++ '\n' :: '\n' :: pyStr description ++ '\n' :: '\n' ::
    ( "(This tool calls: ").toList ++ pyUpper method ++ ' ' :: path ++ [')'])

/-- What `mcp.add_tool` receives for one dynamic endpoint: the derived
identifier, the docstring, and the data the request closure binds. -/
structure ToolRecord where
  name : Str
  docstring : Str
  path : Str
  method : Str
  operation : Json

/-- Inner loop of `register_openapi_endpoints_as_tools` over one path
item's methods, in document order (skipped endpoints are only counted by
the source; the count is not modelled). -/
def registerMethods (path : Str) : List (Str × Json) → Except Str (List ToolRecord)
  | [] => .ok []
  | (method, operation) :: rest => do
    if allowedMethods.contains (pyLower method) then do
      let keep ← should_register_endpoint path method operation
      if keep then do
        let docstring ← buildDocstring method path operation
        let more ← registerMethods path rest
        .ok ({ name := normalize_tool_name method path, docstring := docstring,
               path := path, method := method, operation := operation } :: more)
      else
        registerMethods path rest
    else
      registerMethods path rest

/-- Outer loop of `register_openapi_endpoints_as_tools` over the paths. -/
def registerPaths : List (Str × Json) → Except Str (List ToolRecord)
  | [] => .ok []
  | (path, pathItem) :: rest =>
    if pyTruthy pathItem then do
      let items ← pyItems pathItem
      let tools ← registerMethods path items
      let more ← registerPaths rest
      .ok (tools ++ more)
    else
      registerPaths rest

/-- `register_openapi_endpoints_as_tools` from `tools/api.py`. -/
def register_openapi_endpoints_as_tools (spec : Json) : Except Str (List ToolRecord) := do
  let paths ← pyGetD spec pathsKey (Json.mkObj [])
  let items ← pyItems paths
  registerPaths items

/-- The dynamic-registration part of `register_api_tools`: `fetched` is
the Spec Fetcher's result (`none` on any fetch failure). The static
`download_ontology` registration that precedes it is unconditional and
not modelled. An `Except.error` models the AttributeError crashing the
startup pass. -/
def register_api_tools (fetched : Option Json) : Except Str (List ToolRecord) :=
  match fetched with
  | some spec => if pyTruthy spec then register_openapi_endpoints_as_tools spec else .ok []
  | none => .ok []

/-! ## The request closure (`make_dynamic_tool_func` / `dynamic_tool_func`) -/

/-- What the closure hands to `make_api_request`: the resolved URL, the
upper-cased method, and exactly one of the two parameter channels. -/
structure RequestArgs where
  url : Str
  method : Str
  params : Option (List (Str × Json))
  json_data : Option (List (Str × Json))

/-- `key in d` for the string-keyed caller mapping. -/
def dictMember (d : List (Str × Json)) (k : Str) : Bool :=
  (d.lookup k).isSome

/-- `d.pop(k)` (the removal part; the returned value is read separately). -/
def dictPop (d : List (Str × Json)) (k : Str) : List (Str × Json) :=
  d.eraseP fun kv => kv.1 == k

/-- The path-parameter loop of `dynamic_tool_func`: for every operation
parameter with `in == "path"` whose name is in the supplied mapping, pop
it and substitute its `str()` form into the URL at `"{name}"`.
A path parameter without a `"name"` key raises (KeyError). -/
def substPathParams : Str → List (Str × Json) → List Json →
    Except Str (Str × List (Str × Json))
  | url, params, [] => .ok (url, params)
  | url, params, p :: rest => do
    let loc ← pyGetD p inKey Json.null
    if isStrEq loc pathLoc then do
      let pname ← pyIndexKey p nameKey
      match pname with
      | .str s =>
        if dictMember params s then
          substPathParams
            (pyReplace (lbrace :: s ++ [rbrace])
              (pyStr ((params.lookup s).getD Json.null)) url)
            (dictPop params s) rest
        else
          substPathParams url params rest
      | _ => substPathParams url params rest
    else
      substPathParams url params rest

/-- The request closure built by `make_dynamic_tool_func` in
`tools/api.py`, at call time. `base` stands for
`settings.server_base_url`; the caller's mapping is copied by the source
before mutation, which a pure model renders by never mutating it. An
`Except.error` models an exception escaping the closure on a
structurally malformed operation object. -/
def dynamic_tool_func (base path method : Str) (operation : Json)
    (parameters : List (Str × Json)) : Except Str RequestArgs := do
  let pj ← pyGetD operation parametersKey (Json.mkArr [])
  let opParams ← pyElems pj
  let r ← substPathParams (base ++ path) parameters opParams
  let method_upper := pyUpper method
  .ok { url := r.1, method := method_upper,
        params := if method_upper = getLit then some r.2 else none,
        json_data := if method_upper = getLit then none else some r.2 }

/-- Specification view: the names of the operation's parameters declared
with location `path`, in declaration order. (A non-string name never
matches the string-keyed caller mapping; it is dropped here and skipped
by the closure.) -/
def pathParamNames : List Json → List Str
  | [] => []
  | p :: rest =>
    match p with
    | .obj fields =>
      match fields.toList.lookup inKey with
      | some (.str loc) =>
        if loc = pathLoc then
          match fields.toList.lookup nameKey with
          | some (.str s) => s :: pathParamNames rest
          | _ => pathParamNames rest
        else pathParamNames rest
      | _ => pathParamNames rest
    | _ => pathParamNames rest

/-- Well-formedness of one parameter descriptor: an object which, when
declared with location `path`, carries a `"name"` key (what the OpenAPI
schema guarantees; without it the closure raises KeyError). -/
def wfOpParam : Json → Bool
  | .obj fields =>
    match fields.toList.lookup inKey with
    | some (.str loc) =>
      if loc = pathLoc then (fields.toList.lookup nameKey).isSome
      else true
    | _ => true
  | _ => false

/-- Well-formedness of an operation's parameter descriptors. -/
def wfOpParams (opParams : List Json) : Bool :=
  opParams.all wfOpParam

/-- Specification view of the substitution pass: pop each declared path
parameter present in the mapping and substitute its string form into the
URL at `"{name}"`. -/
def specSubst : Str → List (Str × Json) → List Str →
    Str × List (Str × Json)
  | url, params, [] => (url, params)
  | url, params, n :: rest =>
    if dictMember params n then
      specSubst
        (pyReplace (lbrace :: n ++ [rbrace])
          (pyStr ((params.lookup n).getD Json.null)) url)
        (dictPop params n) rest
    else
      specSubst url params rest

/-! ## Endpoint-filter specification views (for the binary-response rule) -/

/-- The declared responses of an operation, best effort (empty list for
anything structurally unexpected). -/
def responsesList (operation : Json) : List Json :=
  match operation with
  | .obj fields =>
    match (fields.toList.lookup responsesKey).getD (Json.mkObj []) with
    | .obj resps => resps.toList.map Prod.snd
    | _ => []
  | _ => []

/-- The content types one declared response carries, best effort. -/
def respContentTypes (r : Json) : List Str :=
  match r with
  | .obj rf =>
    match (rf.toList.lookup contentKey).getD (Json.mkObj []) with
    | .obj cf => cf.toList.map Prod.fst
    | _ => []
  | _ => []

/-- A response is well-formed when it is an object whose `content` entry
(if any) is an object. -/
def wfResponse (r : Json) : Bool :=
  match r with
  | .obj rf =>
    match (rf.toList.lookup contentKey).getD (Json.mkObj []) with
    | .obj _ => true
    | _ => false
  | _ => false

/-- An operation's responses are well-formed when the operation is an
object, its `responses` entry (if any) is an object, and every response
in it is well-formed. -/
def wfResponses (operation : Json) : Bool :=
  match operation with
  | .obj fields =>
    match (fields.toList.lookup responsesKey).getD (Json.mkObj []) with
    | .obj resps => (resps.toList.map Prod.snd).all wfResponse
    | _ => false
  | _ => false

/-- All content types declared across an operation's responses. -/
def declaredMimes (operation : Json) : List Str :=
  ((responsesList operation).map respContentTypes).flatten

/-! ## The HTTP executor (`make_api_request` in `tools/api.py`) -/

def successKey : Str := ( "success").toList

def errorKey : Str := ( "error").toList

def statusCodeKey : Str := ( "status_code").toList

def dataKey : Str := ( "data").toList

def filenameKey : Str := ( "filename").toList

def pathKey : Str := ( "path").toList

def contentTypeKey : Str := ( "content_type").toList

/-- The possible outcomes of the underlying `requests.request` call, the
executor's environment: a network timeout, a connection failure, another
request exception, or a response carrying its status code, reason
phrase, `Content-Type` header, body text, and the result of attempting
to parse the body as JSON (`none` models `response.json()` raising
`ValueError`). -/
inductive HttpOutcome where
  | timeout
  | connectionError
  | requestError (msg : Str)
  | response (status : Nat) (reason : Str) (contentType : Str)
      (bodyText : Str) (bodyJson : Option Json)

/-- `requests.Response.raise_for_status` raises exactly for 400–599. -/
def raisesForStatus (status : Nat) : Bool :=
  decide (400 ≤ status) && decide (status < 600)

/-- The message of the `requests.HTTPError` raised by
`raise_for_status`: `"{code} Client Error: {reason} for url: {url}"` for
4xx and `"{code} Server Error: ..."` for 5xx. -/
def httpErrorMsg (status : Nat) (reason url : Str) : Str :=
  natStr status ++
    (if status < 500 then ( " Client Error: ").toList
      else ( " Server Error: ").toList) ++
    reason ++ ( " for url: ").toList ++ url

/-- The description of the timeout envelope,
`f"The request to {url} timed out after {timeout} seconds."`. -/
def timeoutDescription (url : Str) (timeout : Nat) : Str :=
  ( "The request to ").toList ++ url ++ ( " timed out after ").toList ++
    natStr timeout ++ ( " seconds.").toList

/-- `content_type.split("/")[1]`: the text between the first slash and
the next (the branch using it is guarded by an `image/` prefix, so the
index exists). -/
def splitSecond (s : Str) : Str :=
  ((s.dropWhile (· ≠ '/')).drop 1).takeWhile (· ≠ '/')

/-- The content types the executor persists to disk instead of
returning inline. -/
def savesBinary (content_type : Str) : Bool :=
  ( "image/").toList.isPrefixOf content_type ||
  ( "application/octet-stream").toList.isPrefixOf content_type

/-- `make_api_request` from `tools/api.py`. The pure model takes the
outcome of the underlying HTTP call as an input: `url` and `timeout`
mirror the function's arguments, `storage` is
`settings.filesystem_storage`, and `uuidName` the random `uuid.uuid4()`
stem used when a binary body is persisted (the path join is rendered
with `/`). Auth-header attachment has no observable effect on the
returned envelope and is not modelled. -/
def make_api_request (url : Str) (timeout : Nat) (storage uuidName : Str)
    (outcome : HttpOutcome) : Json :=
  match outcome with
  | .timeout =>
    Json.mkObj
      [(successKey, .bool false),
       (errorKey, .str ( "Request timed out").toList),
       (statusCodeKey, .num 408),
       (descriptionKey, .str (timeoutDescription url timeout))]
  | .connectionError =>
    Json.mkObj
      [(successKey, .bool false),
       (errorKey, .str ( "Connection failed").toList),
       (statusCodeKey, .num 503),
       (descriptionKey, .str (( "Could not connect to ").toList ++ url ++
         ( ". The server may be down or unreachable.").toList))]
  | .requestError msg =>
    Json.mkObj
      [(successKey, .bool false),
       (errorKey, .str msg),
       (statusCodeKey, .num 500),
       (descriptionKey, .str (( "Request failed: ").toList ++ msg))]
  | .response status reason ctype bodyText bodyJson =>
    if status = 404 then
      Json.mkObj
        [(successKey, .bool false),
         (errorKey, .str (( "Resource not found: ").toList ++ url)),
         (statusCodeKey, .num 404),
         (descriptionKey, .str
           ( "The requested resource could not be found on the server.").toList)]
    else if status = 401 then
      Json.mkObj
        [(successKey, .bool false),
         (errorKey, .str ( "Authentication required").toList),
         (statusCodeKey, .num 401),
         (descriptionKey, .str
           ( "The request requires valid authentication credentials.").toList)]
    else if status = 403 then
      Json.mkObj
        [(successKey, .bool false),
         (errorKey, .str ( "Access forbidden").toList),
         (statusCodeKey, .num 403),
         (descriptionKey, .str
           ( "You do not have permission to access this resource.").toList)]
    else if raisesForStatus status then
      -- raise_for_status raises HTTPError, caught by the generic
      -- RequestException handler, which reports str(e) under a fixed
      -- status_code of 500
      Json.mkObj
        [(successKey, .bool false),
         (errorKey, .str (httpErrorMsg status reason url)),
         (statusCodeKey, .num 500),
         (descriptionKey, .str (( "Request failed: ").toList ++
           httpErrorMsg status reason url))]
    else
      let content_type := pyLower ctype
      if savesBinary content_type then
        let ext := if ( "image/").toList.isPrefixOf content_type
          then splitSecond content_type else ( "bin").toList
        let full_path := storage ++ '/' :: uuidName ++ '.' :: ext
        Json.mkObj
          [(successKey, .bool true),
           (filenameKey, .str full_path),
           (pathKey, .str full_path),
           (contentTypeKey, .str content_type),
           (descriptionKey, .str
             (( "The binary data has been saved to: ").toList ++ full_path))]
      else
        match bodyJson with
        | some j => j
        | none =>
          Json.mkObj
            [(successKey, .bool true),
             (dataKey, .str bodyText),
             (contentTypeKey, .str content_type),
             (descriptionKey, .str ( "Response is not JSON data").toList)]

/-- Field access on a result object (`none` when the result is not an
object or lacks the key). -/
def jsonField (j : Json) (key : Str) : Option Json :=
  match j with
  | .obj fields => fields.toList.lookup key
  | _ => none

/-- Whether a result object carries the key at all. -/
def jsonHasField (j : Json) (key : Str) : Bool := (jsonField j key).isSome

/-- The outcomes the executor reports as structured failures: timeout,
connection failure, another request exception, or a response with
status 404/401/403 or any status `raise_for_status` raises for. -/
def isFailureOutcome : HttpOutcome → Bool
  | .timeout => true
  | .connectionError => true
  | .requestError _ => true
  | .response status _ _ _ _ =>
    status == 404 || status == 401 || status == 403 || raisesForStatus status

/-- A status that flows past the explicit checks and
`raise_for_status` into the success-path body handling. -/
def passesRaise (status : Nat) : Bool :=
  !(status == 404 || status == 401 || status == 403 || raisesForStatus status)

/-! ## Image analysis tools (`tools/analysis.py`) -/

/-- An RGB image: dimensions and a pixel map (the contents of
`np.array(img)` for the RGB-converted PIL image; `pixel x y` is the
`(r, g, b)` triple at column `x`, row `y`). -/
structure ImageModel where
  width : Nat
  height : Nat
  pixel : Nat → Nat → Nat × Nat × Nat

def x1Key : Str := ( "x1").toList

def y1Key : Str := ( "y1").toList

def x2Key : Str := ( "x2").toList

def y2Key : Str := ( "y2").toList

/-- Does the bounding-box dict carry all of `x1`, `y1`, `x2`, `y2`
(the `all(key in bbox for key in [...])` check)? -/
def bboxComplete (b : List (Str × Int)) : Bool :=
  [x1Key, y1Key, x2Key, y2Key].all fun k => (b.lookup k).isSome

/-- The first bounding-box check of `compute_average_rgb`:
`not bbox or not all(key in bbox for key in [...])` — a `None` or empty
dict is falsy, and otherwise every key must be present. -/
def bboxMissing (bbox : Option (List (Str × Int))) : Bool :=
  match bbox with
  | none => true
  | some b => b.isEmpty || !(bboxComplete b)

/-- Surround a string with single quotes, as Python repr does. -/
def quoted (s : Str) : Str := squote :: s ++ [squote]

/-- Python `repr` of an int-valued bounding-box dict (interpolated into
the invalid-coordinates error message). -/
def bboxRepr (b : List (Str × Int)) : Str :=
  lbrace :: commaJoin (b.map fun kv => quoted kv.1 ++ ':' :: ' ' :: intStr kv.2)
    ++ [rbrace]

/-- The coordinate-validation condition of `compute_average_rgb`
(line 80 of `tools/analysis.py`). -/
def invalidBBoxCoords (x1 y1 x2 y2 width height : Int) : Bool :=
  decide (x1 < 0) || decide (y1 < 0) || decide (x2 > width) ||
    decide (y2 > height) || decide (x1 ≥ x2) || decide (y1 ≥ y2)

/-- The pixels of `img` in the rectangle `[x1, x2) × [y1, y2)`, row
major, as `np.array` lays out `img.crop((x1, y1, x2, y2))` (and as the
slice `img_array[y1:y2, x1:x2]` does). -/
def regionPixels (img : ImageModel) (x1 y1 x2 y2 : Nat) :
    List (Nat × Nat × Nat) :=
  (List.range (y2 - y1)).flatMap fun dy =>
    (List.range (x2 - x1)).map fun dx => img.pixel (x1 + dx) (y1 + dy)

/-- `np.mean`: the exact rational mean (Python computes it in floating
point; no claim constrains rounding). -/
def meanQ (l : List Nat) : ℚ :=
  ((l.map fun x => (x : ℚ)).sum) / (l.length : ℚ)

/-- The variance, i.e. the square of `np.std` (kept squared because the
square root is irrational in general; no claim constrains the value). -/
def varQ (l : List Nat) : ℚ :=
  ((l.map fun x => ((x : ℚ) - meanQ l) ^ 2).sum) / (l.length : ℚ)

def insertSorted (x : Nat) : List Nat → List Nat
  | [] => [x]
  | y :: ys => if x ≤ y then x :: y :: ys else y :: insertSorted x ys

/-- Ascending insertion sort (the order `np.median`/`np.unique` use). -/
def sortNat (l : List Nat) : List Nat := l.foldr insertSorted []

/-- `np.median`: middle element of the sorted data, or the mean of the
two middle elements for even length. -/
def medianQ (l : List Nat) : ℚ :=
  let s := sortNat l
  let n := s.length
  if n % 2 = 1 then ((s.getD (n / 2) 0 : Nat) : ℚ)
  else (((s.getD (n / 2 - 1) 0 : Nat) : ℚ) + ((s.getD (n / 2) 0 : Nat) : ℚ)) / 2

/-- Deduplicate an ascending list (`np.unique` of the sorted data). -/
def dedupSorted : List Nat → List Nat
  | [] => []
  | [x] => [x]
  | x :: y :: rest =>
    if x = y then dedupSorted (y :: rest) else x :: dedupSorted (y :: rest)

/-- `np.unique(..., return_counts=True)` followed by `np.argmax(counts)`:
the smallest value attaining the maximal count (argmax returns the first
index, and the unique values are ascending). -/
def modeOf (l : List Nat) : Nat :=
  ((dedupSorted (sortNat l)).foldl
    (fun best v => if l.count v > best.2 then (v, l.count v) else best)
    (0, 0)).1

def avgLit : Str := ( "avg").toList

def stdLit : Str := ( "std").toList

def minLit : Str := ( "min").toList

def maxLit : Str := ( "max").toList

def medianLit : Str := ( "median").toList

def modeLit : Str := ( "mode").toList

/-- `valid_metrics` from `analyze_image_regions`. -/
def validMetrics : List Str :=
  [avgLit, stdLit, minLit, maxLit, medianLit, modeLit]

/-- The per-channel statistics dict: a field is present exactly when its
metric was requested. (`std` stores the variance, see `varQ`; `min` and
`max` use a default of 0 for an empty region, which `np.min`/`np.max`
would reject — the clamped region is proved non-empty below.) -/
structure ChannelStats where
  avg : Option ℚ
  std : Option ℚ
  min : Option Nat
  max : Option Nat
  median : Option ℚ
  mode : Option Nat
deriving DecidableEq

/-- The metric loop of `analyze_image_regions` for one channel. -/
def computeChannel (metrics : List Str) (channel_data : List Nat) :
    ChannelStats :=
  { avg := if metrics.contains avgLit then some (meanQ channel_data) else none,
    std := if metrics.contains stdLit then some (varQ channel_data) else none,
    min := if metrics.contains minLit
      then some ((channel_data.min?).getD 0) else none,
    max := if metrics.contains maxLit
      then some ((channel_data.max?).getD 0) else none,
    median := if metrics.contains medianLit
      then some (medianQ channel_data) else none,
    mode := if metrics.contains modeLit
      then some (modeOf channel_data) else none }

/-- One region request: `region.get("name")`, `region.get("bbox", {})`
and `region.get("metrics", ["avg"])`, with `none` for a missing key. -/
structure RegionSpec where
  name : Option Str
  bbox : List (Str × Int)
  metrics : Option (List Str)

/-- One entry of the per-region results dict. A missing-bbox region gets
`valid := false` with an error message and nothing else; a processed
region gets the clamped bbox, its size, and the per-channel stats. -/
structure RegionEntry where
  valid : Bool
  error : Option Str
  bbox : Option (Int × Int × Int × Int)
  size : Option (Int × Int)
  channels : Option (ChannelStats × ChannelStats × ChannelStats)
deriving DecidableEq

/-- The clamping of `analyze_image_regions` (lines 184–189): coordinates
are forced into the image before extraction. -/
def clampCoords (x1 y1 x2 y2 : Int) (width height : Int) :
    Int × Int × Int × Int :=
  let cx1 := max 0 (min x1 (width - 1))
  let cy1 := max 0 (min y1 (height - 1))
  let cx2 := max (cx1 + 1) (min x2 width)
  let cy2 := max (cy1 + 1) (min y2 height)
  (cx1, cy1, cx2, cy2)

/-- The loop body of `analyze_image_regions` for one region (`i` is the
loop index supplying the default name `region_{i+1}`). -/
def processRegion (img : ImageModel) (i : Nat) (region : RegionSpec) :
    Str × RegionEntry :=
  let name := region.name.getD (( "region_").toList ++ natStr (i + 1))
  let metrics := (region.metrics.getD [avgLit]).filter
    fun m => validMetrics.contains m
  if bboxComplete region.bbox = false then
    (name, { valid := false,
             error := some ( "Invalid bounding box specification").toList,
             bbox := none, size := none, channels := none })
  else
    let x1 := (region.bbox.lookup x1Key).getD 0
    let y1 := (region.bbox.lookup y1Key).getD 0
    let x2 := (region.bbox.lookup x2Key).getD 0
    let y2 := (region.bbox.lookup y2Key).getD 0
    let c := clampCoords x1 y1 x2 y2 (img.width : Int) (img.height : Int)
    let pix := regionPixels img c.1.toNat c.2.1.toNat c.2.2.1.toNat c.2.2.2.toNat
    (name, { valid := true, error := none,
             bbox := some c,
             size := some (c.2.2.1 - c.1, c.2.2.2 - c.2.1),
             channels := some
               (computeChannel metrics (pix.map fun p => p.1),
                computeChannel metrics (pix.map fun p => p.2.1),
                computeChannel metrics (pix.map fun p => p.2.2)) })

/-- `results[name] = entry` on a Python dict: replace in place when the
key already exists, append otherwise. -/
def dictAssign (d : List (Str × RegionEntry)) (k : Str) (v : RegionEntry) :
    List (Str × RegionEntry) :=
  if (d.lookup k).isSome then
    d.map fun kv => if kv.1 == k then (k, v) else kv
  else
    d ++ [(k, v)]

/-- The region loop of `analyze_image_regions` (`enumerate(regions)`). -/
def processRegions (img : ImageModel) :
    Nat → List RegionSpec → List (Str × RegionEntry) →
    List (Str × RegionEntry)
  | _, [], acc => acc
  | i, r :: rest, acc =>
    processRegions img (i + 1) rest
      (dictAssign acc (processRegion img i r).1 (processRegion img i r).2)

/-- The result dict of `analyze_image_regions`. -/
structure AnalyzeResult where
  success : Bool
  data : List (Str × RegionEntry)
  error : Str
  description : Str

/-- `analyze_image_regions` from `tools/analysis.py`. `pathExists`
models `os.path.exists(image_path)`; `opened` the outcome of
`PILImage.open` plus RGB conversion (`.error e` carries `str(e)`). The
outermost catch-all never fires in the pure model, where no step
raises. -/
def analyze_image_regions (image_path : Str) (pathExists : Bool)
    (opened : Except Str ImageModel) (regions : List RegionSpec) :
    AnalyzeResult :=
  if pathExists = false then
    { success := false, data := [],
      error := ( "Image path does not exist: ").toList ++ image_path,
      description := ( "Failed to locate the specified image file.").toList }
  else
    match opened with
    | .error e =>
      { success := false, data := [],
        error := ( "Failed to open image: ").toList ++ e,
        description := ( "Could not open or process the image file.").toList }
    | .ok img =>
      let results := processRegions img 0 regions []
      { success := true, data := results, error := [],
        description := ( "Analyzed ").toList ++ natStr results.length ++
          ( " regions in the image.").toList }

/-- The data field of a successful `compute_average_rgb` call. -/
structure RGBData where
  avg_r : ℚ
  avg_g : ℚ
  avg_b : ℚ
  region_width : Int
  region_height : Int
deriving DecidableEq

/-- The result dict of `compute_average_rgb` (`data` is `none` for the
empty dict the failure envelopes carry). -/
structure RGBResult where
  success : Bool
  data : Option RGBData
  error : Str
  description : Str

/-- `compute_average_rgb` from `tools/analysis.py`. `bbox` is `none` for
a `None` argument; `pathExists` models `os.path.exists`; `opened` the
outcome of `PILImage.open` plus RGB conversion. The outermost catch-all
never fires in the pure model. -/
def compute_average_rgb (bbox : Option (List (Str × Int))) (image_path : Str)
    (pathExists : Bool) (opened : Except Str ImageModel) : RGBResult :=
  if pathExists = false then
    { success := false, data := none,
      error := ( "Image path does not exist: ").toList ++ image_path,
      description := ( "Failed to locate the specified image file.").toList }
  else if bboxMissing bbox then
    { success := false, data := none,
      error := ( "Bounding box must contain ").toList ++ quoted x1Key ++
        ( ", ").toList ++ quoted y1Key ++ ( ", ").toList ++ quoted x2Key ++
        ( ", and ").toList ++ quoted y2Key ++ ( " keys.").toList,
      description := ( "Invalid bounding box specification.").toList }
  else
    match opened with
    | .error e =>
      { success := false, data := none,
        error := ( "Failed to open image: ").toList ++ e,
        description := ( "Could not open or process the image file.").toList }
    | .ok img =>
      let b := bbox.getD []
      let x1 := (b.lookup x1Key).getD 0
      let y1 := (b.lookup y1Key).getD 0
      let x2 := (b.lookup x2Key).getD 0
      let y2 := (b.lookup y2Key).getD 0
      if invalidBBoxCoords x1 y1 x2 y2 (img.width : Int) (img.height : Int) then
        { success := false, data := none,
          error := ( "Invalid bounding box coordinates: ").toList ++
            bboxRepr b ++ ( " for image size ").toList ++
            natStr img.width ++ 'x' :: natStr img.height,
          description :=
            ( "Bounding box coordinates are outside image dimensions or invalid.").toList }
      else
        let pix := regionPixels img x1.toNat y1.toNat x2.toNat y2.toNat
        { success := true,
          data := some
            { avg_r := meanQ (pix.map fun p => p.1),
              avg_g := meanQ (pix.map fun p => p.2.1),
              avg_b := meanQ (pix.map fun p => p.2.2),
              region_width := x2 - x1,
              region_height := y2 - y1 },
          error := [],
          description := ( "Computed average RGB values for the specified bounding box (").toList ++
            intStr (x2 - x1) ++ 'x' :: intStr (y2 - y1) ++ ( " pixels).").toList }

/-! ## File tools (`tools/files.py`) -/

/-- What `load_image` returns on success (the pixel dimensions of the
image handed to FastMCP; the byte encoding itself is not modelled). -/
structure LoadedImage where
  width : Int
  height : Int
deriving DecidableEq

/-- `load_image` from `tools/files.py`. `pathExists` models
`os.path.exists(path)`; `opened` the outcome of `PILImage.open`. Unlike
every other tool, `load_image` RAISES on failure: the inner `ValueError`
(or PIL error) is caught by its own handler and re-raised as
`ValueError(f"Error loading or resizing image: {e}")` — modelled as
`Except.error` carrying that message, i.e. an exception escaping the
tool function. The resize height is `int(resize_width * height / width)`
(float arithmetic in the source, exact floor here). -/
def load_image (path : Str) (pathExists : Bool)
    (opened : Except Str LoadedImage) (resize_width : Option Int)
    (maintain_aspect_ratio : Bool) : Except Str LoadedImage :=
  if pathExists = false then
    .error (( "Error loading or resizing image: Image file not found: ").toList
      ++ path)
  else
    match opened with
    | .error e => .error (( "Error loading or resizing image: ").toList ++ e)
    | .ok img =>
      match resize_width with
      | some w =>
        if 0 < w then
          let h := if maintain_aspect_ratio
            then Int.floor ((w : ℚ) * ((img.height : ℚ) / (img.width : ℚ)))
            else img.height
          .ok { width := w, height := h }
        else .ok img
      | none => .ok img

theorem pyReplaceFuel_nil (pat repl : Str) (fuel : Nat) :
    pyReplaceFuel pat repl fuel [] = [] := by
  cases fuel <;> rfl

theorem pyReplaceFuel_single (a b : Char) :
    ∀ (fuel : Nat) (s : Str), s.length ≤ fuel →
      pyReplaceFuel [a] [b] fuel s = replaceChar a b s := by
  intro fuel
  induction fuel with
  | zero =>
    intro s hs
    match s with
    | [] => rfl
  | succ n ih =>
    intro s hs
    match s with
    | [] => rfl
    | c :: rest =>
      simp only [List.length_cons, Nat.succ_le_succ_iff] at hs
      by_cases hc : a = c
      · subst hc
        simp [pyReplaceFuel, List.isPrefixOf, replaceChar, ih rest hs]
      · have hne : (a == c) = false := by
          simp [hc]
        simp [pyReplaceFuel, List.isPrefixOf, hne, replaceChar,
          ih rest hs, Ne.symm hc]

theorem pyReplaceFuel_remove (a : Char) :
    ∀ (fuel : Nat) (s : Str), s.length ≤ fuel →
      pyReplaceFuel [a] [] fuel s = removeChar a s := by
  intro fuel
  induction fuel with
  | zero =>
    intro s hs
    match s with
    | [] => rfl
  | succ n ih =>
    intro s hs
    match s with
    | [] => rfl
    | c :: rest =>
      simp only [List.length_cons, Nat.succ_le_succ_iff] at hs
      by_cases hc : a = c
      · subst hc
        simp [pyReplaceFuel, List.isPrefixOf, removeChar, ih rest hs]
      · have hne : (a == c) = false := by
          simp [hc]
        simp [pyReplaceFuel, List.isPrefixOf, hne, removeChar,
          ih rest hs, Ne.symm hc]

theorem pyReplaceFuel_squeeze :
    ∀ (fuel : Nat) (s : Str), s.length ≤ fuel →
      pyReplaceFuel ['_', '_'] ['_'] fuel s = squeezeUnderscorePass s := by
  intro fuel
  induction fuel with
  | zero =>
    intro s hs
    match s with
    | [] => rfl
  | succ n ih =>
    intro s hs
    match s with
    | [] => rfl
    | c :: rest =>
      simp only [List.length_cons, Nat.succ_le_succ_iff] at hs
      match rest with
      | [] =>
        by_cases hc : c = '_' <;>
          simp [pyReplaceFuel, List.isPrefixOf, squeezeUnderscorePass, hc,
            pyReplaceFuel_nil]
      | c2 :: rest2 =>
        have hlen2 : rest2.length ≤ n := by
          simp only [List.length_cons] at hs
          omega
        by_cases hc : c = '_'
        · subst hc
          by_cases hc2 : c2 = '_'
          · subst hc2
            simp [pyReplaceFuel, List.isPrefixOf, squeezeUnderscorePass,
              ih rest2 hlen2]
          · have hne : ('_' == c2) = false := by
              simp [Ne.symm hc2]
            simp [pyReplaceFuel, List.isPrefixOf, hne,
              squeezeUnderscorePass, hc2, ih (c2 :: rest2) hs]
        · have hne : ('_' == c) = false := by
            simp [Ne.symm hc]
          simp [pyReplaceFuel, List.isPrefixOf, hne,
            squeezeUnderscorePass, hc, ih (c2 :: rest2) hs]

theorem pyReplace_single (a b : Char) (s : Str) :
    pyReplace [a] [b] s = replaceChar a b s :=
  pyReplaceFuel_single a b s.length s (Nat.le_refl _)

theorem pyReplace_remove (a : Char) (s : Str) :
    pyReplace [a] [] s = removeChar a s :=
  pyReplaceFuel_remove a s.length s (Nat.le_refl _)

theorem pyReplace_squeeze (s : Str) :
    pyReplace ['_', '_'] ['_'] s = squeezeUnderscorePass s :=
  pyReplaceFuel_squeeze s.length s (Nat.le_refl _)

/-- **C1** (corrected, counterexample). On method `"GET"` and path
`"/Pets"` the code produces `"get_Pets"` while the claimed algorithm
(lower-casing the whole string) produces `"get_pets"`; on `"get"` and
`"/a---b"` the code produces `"get_a__b"`, keeping a double underscore,
while the claimed full collapse produces `"get_a_b"`. -/
theorem C1_counterexample :
    normalize_tool_name ( "GET".toList) ( "/Pets".toList) ≠
      claimDeriveName ( "GET".toList) ( "/Pets".toList) ∧
    normalize_tool_name ( "get".toList) ( "/a---b".toList) ≠
      claimDeriveName ( "get".toList) ( "/a---b".toList) := by
  decide

/-- **C1** (corrected, amended claim). The derived identifier equals the
claimed pipeline with two amendments: only the method is lower-cased
(path letters keep their case) and the double-underscore replacement is a
single left-to-right pass, so consecutive underscores may remain. -/
theorem C1_name_derivation (method path : Str) :
    normalize_tool_name method path = amendedDeriveName method path := by
  unfold normalize_tool_name amendedDeriveName
  rw [pyReplace_single, pyReplace_single, pyReplace_remove,
    pyReplace_remove, pyReplace_single, pyReplace_squeeze]

/-- The registered identifiers of a registration pass, when it succeeds. -/
def registeredNames (r : Except Str (List ToolRecord)) : Option (List Str) :=
  match r with
  | .ok ts => some (ts.map ToolRecord.name)
  | .error _ => none

/-- An OpenAPI document with two distinct eligible operations,
`GET /a-b` and `GET /a/b`, that collide after name derivation. -/
def collisionSpecDoc : Json :=
  Json.mkObj
    [(( "paths").toList, Json.mkObj
        [(( "/a-b").toList, Json.mkObj [(( "get").toList, Json.mkObj [])]),
         (( "/a/b").toList, Json.mkObj [(( "get").toList, Json.mkObj [])])])]

/-- **C2** (code bug): the distinct eligible operations `GET /a-b` and
`GET /a/b` both derive the identifier `get_a_b`, and the registration
pass registers both without any collision detection — the resulting
registered-name list contains the same identifier twice, violating the
uniqueness invariant. -/
theorem C2_identifier_collision :
    normalize_tool_name ( "get").toList ( "/a-b").toList =
      normalize_tool_name ( "get").toList ( "/a/b").toList ∧
    registeredNames (register_openapi_endpoints_as_tools collisionSpecDoc) =
      some [( "get_a_b").toList, ( "get_a_b").toList] := by
  decide

/-- **C9** (code bug): a fetched document that is a non-empty JSON array
or string is truthy, so `register_api_tools` enters
`register_openapi_endpoints_as_tools`, whose `spec.get("paths", {})`
raises AttributeError — the startup registration pass crashes instead of
skipping. A JSON object without `"paths"` (and a failed fetch) do take
the graceful zero-tool path the claim describes. -/
theorem C9_malformed_document :
    register_api_tools (some (Json.mkArr [Json.str ( "x").toList])) =
      .error pyAttributeError ∧
    register_api_tools (some (Json.str ( "nope").toList)) =
      .error pyAttributeError ∧
    register_api_tools (some (Json.mkObj
      [(( "openapi").toList, Json.str ( "3.1").toList)])) = .ok [] ∧
    register_api_tools none = .ok [] := by
  constructor
  · rfl
  constructor
  · rfl
  constructor
  · rfl
  · rfl

theorem jsonListToListOfList (xs : List Json) :
    (JsonList.ofList xs).toList = xs := by
  induction xs with
  | nil => rfl
  | cons x rest ih => simp [JsonList.ofList, JsonList.toList, ih]

theorem substPathParams_eq_spec :
    ∀ (opParams : List Json) (url : Str) (params : List (Str × Json)),
      wfOpParams opParams = true →
      substPathParams url params opParams =
        .ok (specSubst url params (pathParamNames opParams)) := by
  intro opParams
  induction opParams with
  | nil => intro url params _; rfl
  | cons p rest ih =>
    intro url params hwf
    simp only [wfOpParams, List.all_cons, Bool.and_eq_true] at hwf
    obtain ⟨hp, hrest'⟩ := hwf
    cases p with
    | null => simp [wfOpParam] at hp
    | bool b => simp [wfOpParam] at hp
    | num n => simp [wfOpParam] at hp
    | str s => simp [wfOpParam] at hp
    | arr es => simp [wfOpParam] at hp
    | obj fields =>
      cases hin : fields.toList.lookup inKey with
      | none =>
        simp [substPathParams, pyGetD, hin, isStrEq, pathParamNames,
          ih url params hrest', Bind.bind, Except.bind]
      | some v =>
        cases v with
        | str loc =>
          by_cases hloc : loc = pathLoc
          · subst hloc
            simp only [wfOpParam, hin, if_pos rfl] at hp
            obtain ⟨nv, hnv⟩ := Option.isSome_iff_exists.mp hp
            cases nv with
            | str s =>
              by_cases hm : dictMember params s
              · simp [substPathParams, pyGetD, hin, isStrEq, pyIndexKey, hnv,
                  pathParamNames, specSubst, Bind.bind, Except.bind, hm,
                  ih _ _ hrest']
              · simp [substPathParams, pyGetD, hin, isStrEq, pyIndexKey, hnv,
                  pathParamNames, specSubst, Bind.bind, Except.bind, hm,
                  ih url params hrest']
            | null =>
              simp [substPathParams, pyGetD, hin, isStrEq, pyIndexKey, hnv,
                pathParamNames, Bind.bind, Except.bind, ih url params hrest']
            | bool b =>
              simp [substPathParams, pyGetD, hin, isStrEq, pyIndexKey, hnv,
                pathParamNames, Bind.bind, Except.bind, ih url params hrest']
            | num n =>
              simp [substPathParams, pyGetD, hin, isStrEq, pyIndexKey, hnv,
                pathParamNames, Bind.bind, Except.bind, ih url params hrest']
            | arr es =>
              simp [substPathParams, pyGetD, hin, isStrEq, pyIndexKey, hnv,
                pathParamNames, Bind.bind, Except.bind, ih url params hrest']
            | obj fs =>
              simp [substPathParams, pyGetD, hin, isStrEq, pyIndexKey, hnv,
                pathParamNames, Bind.bind, Except.bind, ih url params hrest']
          · simp [substPathParams, pyGetD, hin, isStrEq, hloc,
              pathParamNames, Bind.bind, Except.bind, ih url params hrest']
        | null =>
          simp [substPathParams, pyGetD, hin, isStrEq, pathParamNames,
            Bind.bind, Except.bind, ih url params hrest']
        | bool b =>
          simp [substPathParams, pyGetD, hin, isStrEq, pathParamNames,
            Bind.bind, Except.bind, ih url params hrest']
        | num n =>
          simp [substPathParams, pyGetD, hin, isStrEq, pathParamNames,
            Bind.bind, Except.bind, ih url params hrest']
        | arr es =>
          simp [substPathParams, pyGetD, hin, isStrEq, pathParamNames,
            Bind.bind, Except.bind, ih url params hrest']
        | obj fs =>
          simp [substPathParams, pyGetD, hin, isStrEq, pathParamNames,
            Bind.bind, Except.bind, ih url params hrest']

/-- **C3** (confirmed). For every closure and caller mapping over a
well-formed parameter list: the closure resolves the URL and remaining
mapping exactly as the specification-level substitution pass does
(each declared `path` parameter present in the mapping is popped and its
string form substituted at `"{name}"`), and the remaining parameters go
to the query channel when the method is GET and to the JSON-body channel
otherwise — the unused channel is always `none`. -/
theorem C3_request_closure (base path method : Str) (operation : Json)
    (parameters : List (Str × Json)) (opParams : List Json)
    (hop : pyGetD operation parametersKey (Json.mkArr []) =
      .ok (Json.mkArr opParams))
    (hwf : wfOpParams opParams = true) :
    dynamic_tool_func base path method operation parameters =
      .ok { url := (specSubst (base ++ path) parameters (pathParamNames opParams)).1,
            method := pyUpper method,
            params := if pyUpper method = getLit
              then some (specSubst (base ++ path) parameters (pathParamNames opParams)).2
              else none,
            json_data := if pyUpper method = getLit
              then none
              else some (specSubst (base ++ path) parameters (pathParamNames opParams)).2 } := by
  unfold dynamic_tool_func
  rw [hop]
  simp [Bind.bind, Except.bind, Json.mkArr, pyElems, jsonListToListOfList,
    substPathParams_eq_spec opParams (base ++ path) parameters hwf]

/-- The operation of the specification's worked example: one `path`
parameter `id` and one `query` parameter `verbose`. -/
def exampleC3Op : Json :=
  Json.mkObj
    [(( "parameters").toList, Json.mkArr
        [Json.mkObj [(( "name").toList, Json.str ( "id").toList),
                     (( "in").toList, Json.str ( "path").toList)],
         Json.mkObj [(( "name").toList, Json.str ( "verbose").toList),
                     (( "in").toList, Json.str ( "query").toList)]])]

theorem C3_request_closure_witness :
    dynamic_tool_func [] ( "/cards/\x7bid\x7d").toList ( "get").toList
        exampleC3Op [(( "id").toList, Json.num 7), (( "verbose").toList, Json.bool true)] =
      .ok { url := ( "/cards/7").toList,
            method := ( "GET").toList,
            params := some [(( "verbose").toList, Json.bool true)],
            json_data := none } :=
  C3_request_closure [] ( "/cards/\x7bid\x7d").toList ( "get").toList
    exampleC3Op [(( "id").toList, Json.num 7), (( "verbose").toList, Json.bool true)]
    [Json.mkObj [(( "name").toList, Json.str ( "id").toList),
                 (( "in").toList, Json.str ( "path").toList)],
     Json.mkObj [(( "name").toList, Json.str ( "verbose").toList),
                 (( "in").toList, Json.str ( "query").toList)]]
    rfl (by decide)

theorem scanResponses_eq (path : Str) :
    ∀ (rs : List Json), rs.all wfResponse = true →
      scanResponses path rs =
        .ok (!(((rs.map respContentTypes).flatten).any isBinaryMime) ||
          pyIn downloadImageMarker path) := by
  intro rs
  induction rs with
  | nil => intro _; simp [scanResponses]
  | cons r rest ih =>
    intro hall
    simp only [List.all_cons, Bool.and_eq_true] at hall
    obtain ⟨hr, hrest⟩ := hall
    cases r with
    | null => simp [wfResponse] at hr
    | bool b => simp [wfResponse] at hr
    | num n => simp [wfResponse] at hr
    | str s => simp [wfResponse] at hr
    | arr es => simp [wfResponse] at hr
    | obj rf =>
      cases hc : (rf.toList.lookup contentKey).getD (Json.mkObj []) with
      | obj cf =>
        cases hm : pyIn downloadImageMarker path with
        | true =>
          simp [scanResponses, pyGetD, hc, pyKeys, Bind.bind, Except.bind,
            hm, ih hrest]
        | false =>
          cases hb : (cf.toList.map Prod.fst).any isBinaryMime with
          | true =>
            simp [scanResponses, pyGetD, hc, pyKeys, Bind.bind, Except.bind,
              hm, hb, respContentTypes]
          | false =>
            simp [scanResponses, pyGetD, hc, pyKeys, Bind.bind, Except.bind,
              hm, hb, respContentTypes, hc, ih hrest]
      | null => simp [wfResponse, hc] at hr
      | bool b => simp [wfResponse, hc] at hr
      | num n => simp [wfResponse, hc] at hr
      | str s => simp [wfResponse, hc] at hr
      | arr es => simp [wfResponse, hc] at hr

theorem should_register_eq (path method : Str) (operation : Json)
    (hwf : wfResponses operation = true) :
    should_register_endpoint path method operation =
      .ok (if excluded_endpoint_patterns.any (fun pat => pyIn pat (pyLower path))
        then false
        else (!((declaredMimes operation).any isBinaryMime) ||
          pyIn downloadImageMarker path)) := by
  cases operation with
  | null => simp [wfResponses] at hwf
  | bool b => simp [wfResponses] at hwf
  | num n => simp [wfResponses] at hwf
  | str s => simp [wfResponses] at hwf
  | arr es => simp [wfResponses] at hwf
  | obj fields =>
    cases hr : (fields.toList.lookup responsesKey).getD (Json.mkObj []) with
    | obj resps =>
      have hall : (resps.toList.map Prod.snd).all wfResponse = true := by
        have hwf' :
            (match (fields.toList.lookup responsesKey).getD (Json.mkObj []) with
              | Json.obj resps => (resps.toList.map Prod.snd).all wfResponse
              | _ => false) = true := hwf
        rw [hr] at hwf'
        exact hwf'
      by_cases hex :
          excluded_endpoint_patterns.any (fun pat => pyIn pat (pyLower path)) = true
      · simp [should_register_endpoint, hex]
      · simp only [Bool.not_eq_true] at hex
        simp [should_register_endpoint, hex, pyGetD, hr, pyValues,
          Bind.bind, Except.bind, scanResponses_eq path _ hall,
          declaredMimes, responsesList, hr]
    | null => simp [wfResponses, hr] at hwf
    | bool b => simp [wfResponses, hr] at hwf
    | num n => simp [wfResponses, hr] at hwf
    | str s => simp [wfResponses, hr] at hwf
    | arr es => simp [wfResponses, hr] at hwf

/-- **C4** (confirmed). For every operation with well-formed response
declarations: if some declared content type is binary (`image/`,
`application/octet-stream` or `application/pdf` prefix) and the path does
not contain `"download-image"`, the filter rejects the operation; and if
the path does contain the marker, then absent the excluded-pattern rule
the filter accepts it regardless of the declared content types. -/
theorem C4_binary_endpoint_filter (path method : Str) (operation : Json)
    (hwf : wfResponses operation = true) :
    ((declaredMimes operation).any isBinaryMime = true →
      pyIn downloadImageMarker path = false →
      should_register_endpoint path method operation = .ok false) ∧
    (excluded_endpoint_patterns.any (fun pat => pyIn pat (pyLower path)) = false →
      pyIn downloadImageMarker path = true →
      should_register_endpoint path method operation = .ok true) := by
  constructor
  · intro hbin hmark
    rw [should_register_eq path method operation hwf]
    by_cases hex :
        excluded_endpoint_patterns.any (fun pat => pyIn pat (pyLower path)) = true
    · simp [hex]
    · simp only [Bool.not_eq_true] at hex
      simp [hex, hbin, hmark]
  · intro hex hmark
    rw [should_register_eq path method operation hwf]
    simp [hex, hmark]

/-- An operation declaring a single response with content type
`image/png`. -/
def exampleC4Op : Json :=
  Json.mkObj
    [(( "responses").toList, Json.mkObj
        [(( "200").toList, Json.mkObj
            [(( "content").toList, Json.mkObj
                [(( "image/png").toList, Json.mkObj [])])])])]

theorem C4_binary_endpoint_filter_witness :
    should_register_endpoint ( "/cards/image").toList ( "get").toList
        exampleC4Op = .ok false ∧
    should_register_endpoint ( "/cards/download-image").toList ( "get").toList
        exampleC4Op = .ok true :=
  ⟨(C4_binary_endpoint_filter ( "/cards/image").toList ( "get").toList
      exampleC4Op (by decide)).1 (by decide) (by decide),
   (C4_binary_endpoint_filter ( "/cards/download-image").toList ( "get").toList
      exampleC4Op (by decide)).2 (by decide) (by decide)⟩

theorem jsonFieldsToListOfList (xs : List (Str × Json)) :
    (JsonFields.ofList xs).toList = xs := by
  induction xs with
  | nil => rfl
  | cons kv rest ih =>
    cases kv
    simp [JsonFields.ofList, JsonFields.toList, ih]

theorem pyIn_self_append (pat y : Str) : pyIn pat (pat ++ y) = true := by
  cases pat with
  | nil =>
    cases y with
    | nil => rfl
    | cons c rest => simp [pyIn]
  | cons c rest =>
    have hpre : (c :: rest).isPrefixOf ((c :: rest) ++ y) = true := by
      rw [List.isPrefixOf_iff_prefix]
      exact List.prefix_append _ _
    rw [List.cons_append]
    simp [pyIn]

theorem pyIn_append (pat x y : Str) : pyIn pat (x ++ (pat ++ y)) = true := by
  induction x with
  | nil => simpa using pyIn_self_append pat y
  | cons c rest ih => simp [pyIn, ih]

theorem pyIn_timeoutDescription (url : Str) (timeout : Nat) :
    pyIn (natStr timeout) (timeoutDescription url timeout) = true := by
  have h := pyIn_append (natStr timeout)
    (( "The request to ").toList ++ url ++ ( " timed out after ").toList)
    (( " seconds.").toList)
  simpa [timeoutDescription, List.append_assoc] using h

/-- Shared helper: every failure outcome produces the structured
`success=false` envelope with `error` and `description` fields and no
`data` field. -/
theorem make_api_request_failure_fields (url : Str) (timeout : Nat)
    (storage uuidName : Str) (outcome : HttpOutcome)
    (hfail : isFailureOutcome outcome = true) :
    jsonField (make_api_request url timeout storage uuidName outcome)
        successKey = some (.bool false) ∧
    jsonHasField (make_api_request url timeout storage uuidName outcome)
        errorKey = true ∧
    jsonHasField (make_api_request url timeout storage uuidName outcome)
        descriptionKey = true ∧
    jsonHasField (make_api_request url timeout storage uuidName outcome)
        dataKey = false := by
  cases outcome with
  | timeout =>
    simp [make_api_request, jsonField, jsonHasField, Json.mkObj,
      jsonFieldsToListOfList, List.lookup, successKey, errorKey,
      descriptionKey, dataKey, statusCodeKey]
  | connectionError =>
    simp [make_api_request, jsonField, jsonHasField, Json.mkObj,
      jsonFieldsToListOfList, List.lookup, successKey, errorKey,
      descriptionKey, dataKey, statusCodeKey]
  | requestError msg =>
    simp [make_api_request, jsonField, jsonHasField, Json.mkObj,
      jsonFieldsToListOfList, List.lookup, successKey, errorKey,
      descriptionKey, dataKey, statusCodeKey]
  | response status reason ctype text bodyJson =>
    by_cases h404 : status = 404
    · simp [make_api_request, h404, jsonField, jsonHasField, Json.mkObj,
        jsonFieldsToListOfList, List.lookup, successKey, errorKey,
        descriptionKey, dataKey, statusCodeKey]
    by_cases h401 : status = 401
    · simp [make_api_request, h404, h401, jsonField, jsonHasField, Json.mkObj,
        jsonFieldsToListOfList, List.lookup, successKey, errorKey,
        descriptionKey, dataKey, statusCodeKey]
    by_cases h403 : status = 403
    · simp [make_api_request, h404, h401, h403, jsonField, jsonHasField,
        Json.mkObj, jsonFieldsToListOfList, List.lookup, successKey,
        errorKey, descriptionKey, dataKey, statusCodeKey]
    by_cases hraise : raisesForStatus status = true
    · simp [make_api_request, h404, h401, h403, hraise, jsonField,
        jsonHasField, Json.mkObj, jsonFieldsToListOfList, List.lookup,
        successKey, errorKey, descriptionKey, dataKey, statusCodeKey]
    · exfalso
      simp [isFailureOutcome, h404, h401, h403, hraise] at hfail

/-- The result of the executor on a 2xx JSON response with body
`{"cards": 1}`. -/
def c5Result : Json :=
  make_api_request ( "https://pad.example/x").toList 30 ( "./storage").toList
    ( "u1").toList
    (.response 200 ( "OK").toList ( "application/json").toList ( "body").toList
      (some (Json.mkObj [(( "cards").toList, Json.num 1)])))

/-- **C5** (corrected, counterexample). When a 2xx response body parses
as JSON, the executor returns it verbatim: for the body `{"cards": 1}`
the tool result is exactly that object and has no `success`, no `error`
and no `description` field, contradicting the claimed uniform result
contract. -/
theorem C5_counterexample :
    c5Result = Json.mkObj [(( "cards").toList, Json.num 1)] ∧
    jsonField c5Result successKey = none ∧
    jsonField c5Result errorKey = none ∧
    jsonField c5Result descriptionKey = none :=
  ⟨rfl, rfl, rfl, rfl⟩

/-- **C5** (corrected, amended claim). Every failure outcome returns an
object with `success=false`, an `error` message and a `description` (and
no `data` field); a 2xx non-JSON text response returns `success=true`
with the text under `data`, a note, and no `error` field; a 2xx JSON
body is returned verbatim, carrying only the remote server's fields; a
2xx binary response returns `success=true` with the saved file's path
and no `error` field. -/
theorem C5_result_shape (url : Str) (timeout : Nat) (storage uuidName : Str) :
    (∀ outcome, isFailureOutcome outcome = true →
      jsonField (make_api_request url timeout storage uuidName outcome)
          successKey = some (.bool false) ∧
      jsonHasField (make_api_request url timeout storage uuidName outcome)
          errorKey = true ∧
      jsonHasField (make_api_request url timeout storage uuidName outcome)
          descriptionKey = true ∧
      jsonHasField (make_api_request url timeout storage uuidName outcome)
          dataKey = false) ∧
    (∀ status reason ctype text, passesRaise status = true →
      savesBinary (pyLower ctype) = false →
      jsonField (make_api_request url timeout storage uuidName
          (.response status reason ctype text none)) successKey = some (.bool true) ∧
      jsonField (make_api_request url timeout storage uuidName
          (.response status reason ctype text none)) dataKey = some (.str text) ∧
      jsonHasField (make_api_request url timeout storage uuidName
          (.response status reason ctype text none)) descriptionKey = true ∧
      jsonHasField (make_api_request url timeout storage uuidName
          (.response status reason ctype text none)) errorKey = false) ∧
    (∀ status reason ctype text j, passesRaise status = true →
      savesBinary (pyLower ctype) = false →
      make_api_request url timeout storage uuidName
        (.response status reason ctype text (some j)) = j) ∧
    (∀ status reason ctype text bodyJson, passesRaise status = true →
      savesBinary (pyLower ctype) = true →
      jsonField (make_api_request url timeout storage uuidName
          (.response status reason ctype text bodyJson)) successKey = some (.bool true) ∧
      jsonHasField (make_api_request url timeout storage uuidName
          (.response status reason ctype text bodyJson)) pathKey = true ∧
      jsonHasField (make_api_request url timeout storage uuidName
          (.response status reason ctype text bodyJson)) errorKey = false) := by
  refine ⟨?_, ?_, ?_, ?_⟩
  · exact fun outcome hfail =>
      make_api_request_failure_fields url timeout storage uuidName outcome hfail
  · intro status reason ctype text hpass hbin
    simp only [passesRaise, Bool.not_eq_eq_eq_not, Bool.not_true,
      Bool.or_eq_false_iff, beq_eq_false_iff_ne] at hpass
    obtain ⟨⟨⟨h404, h401⟩, h403⟩, hraise⟩ := hpass
    simp [make_api_request, h404, h401, h403, hraise, hbin, jsonField,
      jsonHasField, Json.mkObj, jsonFieldsToListOfList, List.lookup,
      successKey, errorKey, descriptionKey, dataKey, contentTypeKey]
  · intro status reason ctype text j hpass hbin
    simp only [passesRaise, Bool.not_eq_eq_eq_not, Bool.not_true,
      Bool.or_eq_false_iff, beq_eq_false_iff_ne] at hpass
    obtain ⟨⟨⟨h404, h401⟩, h403⟩, hraise⟩ := hpass
    simp [make_api_request, h404, h401, h403, hraise, hbin]
  · intro status reason ctype text bodyJson hpass hbin
    simp only [passesRaise, Bool.not_eq_eq_eq_not, Bool.not_true,
      Bool.or_eq_false_iff, beq_eq_false_iff_ne] at hpass
    obtain ⟨⟨⟨h404, h401⟩, h403⟩, hraise⟩ := hpass
    simp [make_api_request, h404, h401, h403, hraise, hbin, jsonField,
      jsonHasField, Json.mkObj, jsonFieldsToListOfList, List.lookup,
      successKey, errorKey, descriptionKey, dataKey, pathKey,
      filenameKey, contentTypeKey]

theorem C5_result_shape_witness :
    jsonField (make_api_request ( "/u").toList 30 ( "./s").toList ( "n").toList
        .timeout) successKey = some (.bool false) ∧
    jsonField (make_api_request ( "/u").toList 30 ( "./s").toList ( "n").toList
        (.response 200 ( "OK").toList ( "text/plain").toList ( "hi").toList none))
        dataKey = some (.str ( "hi").toList) ∧
    make_api_request ( "/u").toList 30 ( "./s").toList ( "n").toList
        (.response 200 ( "OK").toList ( "application/json").toList ( "5").toList
          (some (Json.num 5))) = Json.num 5 :=
  ⟨((C5_result_shape ( "/u").toList 30 ( "./s").toList ( "n").toList).1
      .timeout (by decide)).1,
   ((C5_result_shape ( "/u").toList 30 ( "./s").toList ( "n").toList).2.1
      200 ( "OK").toList ( "text/plain").toList ( "hi").toList
      (by decide) (by decide)).2.1,
   (C5_result_shape ( "/u").toList 30 ( "./s").toList ( "n").toList).2.2.1
      200 ( "OK").toList ( "application/json").toList ( "5").toList
      (Json.num 5) (by decide) (by decide)⟩

/-- The result of the executor on a 304 (non-2xx, non-raising) response
with a JSON body. -/
def c6Result : Json :=
  make_api_request ( "/u").toList 30 ( "./s").toList ( "n").toList
    (.response 304 ( "Not Modified").toList ( "application/json").toList
      ( "body").toList (some (Json.mkObj [(( "cached").toList, Json.bool true)])))

/-- **C6** (corrected, counterexample). A 304 response is not 2xx, yet
`raise_for_status` does not raise for it, so the executor falls through
to body handling and returns the JSON body verbatim — not the generic
error envelope the claim requires for every non-2xx status. -/
theorem C6_counterexample :
    c6Result = Json.mkObj [(( "cached").toList, Json.bool true)] ∧
    jsonField c6Result statusCodeKey = none ∧
    jsonField c6Result successKey = none :=
  ⟨rfl, rfl, rfl⟩

/-- **C6** (corrected, amended claim). 404, 401 and 403 yield their
dedicated `success=false` envelopes with matching `status_code`; any
other status in 400–599 yields the generic envelope carrying the
underlying HTTP error text (under `status_code` 500); a timeout yields
`status_code` 408 with a description naming the configured timeout
value; a connection failure yields `status_code` 503; statuses below 400
other than those three (1xx/3xx) fall through to the success-path body
handling; and the executor is a total function, so no exception passes
the tool boundary in any modelled case. -/
theorem C6_error_envelopes (url : Str) (timeout : Nat) (storage uuidName : Str)
    (reason ctype text : Str) (bodyJson : Option Json) :
    (jsonField (make_api_request url timeout storage uuidName .timeout)
        successKey = some (.bool false) ∧
      jsonField (make_api_request url timeout storage uuidName .timeout)
        statusCodeKey = some (.num 408) ∧
      jsonField (make_api_request url timeout storage uuidName .timeout)
        descriptionKey = some (.str (timeoutDescription url timeout)) ∧
      pyIn (natStr timeout) (timeoutDescription url timeout) = true) ∧
    (jsonField (make_api_request url timeout storage uuidName .connectionError)
        successKey = some (.bool false) ∧
      jsonField (make_api_request url timeout storage uuidName .connectionError)
        statusCodeKey = some (.num 503)) ∧
    (∀ status : Nat, status = 404 ∨ status = 401 ∨ status = 403 →
      jsonField (make_api_request url timeout storage uuidName
          (.response status reason ctype text bodyJson)) successKey =
        some (.bool false) ∧
      jsonField (make_api_request url timeout storage uuidName
          (.response status reason ctype text bodyJson)) statusCodeKey =
        some (.num status)) ∧
    (∀ status : Nat, 400 ≤ status → status < 600 →
      status ≠ 404 → status ≠ 401 → status ≠ 403 →
      jsonField (make_api_request url timeout storage uuidName
          (.response status reason ctype text bodyJson)) successKey =
        some (.bool false) ∧
      jsonField (make_api_request url timeout storage uuidName
          (.response status reason ctype text bodyJson)) errorKey =
        some (.str (httpErrorMsg status reason url)) ∧
      jsonField (make_api_request url timeout storage uuidName
          (.response status reason ctype text bodyJson)) statusCodeKey =
        some (.num 500)) ∧
    (∀ (status : Nat) (j : Json), status < 400 →
      status ≠ 404 → status ≠ 401 → status ≠ 403 →
      savesBinary (pyLower ctype) = false →
      make_api_request url timeout storage uuidName
        (.response status reason ctype text (some j)) = j) := by
  refine ⟨?_, ?_, ?_, ?_, ?_⟩
  · refine ⟨?_, ?_, ?_, pyIn_timeoutDescription url timeout⟩ <;>
      simp [make_api_request, jsonField, Json.mkObj, jsonFieldsToListOfList,
        List.lookup, successKey, errorKey, descriptionKey, statusCodeKey]
  · constructor <;>
      simp [make_api_request, jsonField, Json.mkObj, jsonFieldsToListOfList,
        List.lookup, successKey, errorKey, descriptionKey, statusCodeKey]
  · intro status h
    rcases h with h | h | h <;> subst h <;>
      constructor <;>
      simp [make_api_request, jsonField, Json.mkObj, jsonFieldsToListOfList,
        List.lookup, successKey, errorKey, descriptionKey, statusCodeKey]
  · intro status h400 h600 h404 h401 h403
    have hraise : raisesForStatus status = true := by
      simp [raisesForStatus, h400, h600]
    refine ⟨?_, ?_, ?_⟩ <;>
      simp [make_api_request, h404, h401, h403, hraise, jsonField, Json.mkObj,
        jsonFieldsToListOfList, List.lookup, successKey, errorKey,
        descriptionKey, statusCodeKey]
  · intro status j hlt h404 h401 h403 hbin
    have hraise : raisesForStatus status = false := by
      have : ¬(400 ≤ status) := by omega
      simp [raisesForStatus, this]
    simp [make_api_request, h404, h401, h403, hraise, hbin]

theorem C6_error_envelopes_witness :
    jsonField (make_api_request ( "/u").toList 30 ( "./s").toList ( "n").toList
        (.response 404 ( "Not Found").toList ( "application/json").toList
          ( "b").toList none)) statusCodeKey = some (.num 404) ∧
    jsonField (make_api_request ( "/u").toList 30 ( "./s").toList ( "n").toList
        (.response 500 ( "Internal Server Error").toList
          ( "application/json").toList ( "b").toList none)) statusCodeKey =
      some (.num 500) ∧
    make_api_request ( "/u").toList 30 ( "./s").toList ( "n").toList
        (.response 304 ( "Not Modified").toList ( "text/plain").toList
          ( "b").toList (some (Json.bool true))) = Json.bool true :=
  ⟨((C6_error_envelopes ( "/u").toList 30 ( "./s").toList ( "n").toList
      ( "Not Found").toList ( "application/json").toList ( "b").toList none).2.2.1
      404 (by decide)).2,
   ((C6_error_envelopes ( "/u").toList 30 ( "./s").toList ( "n").toList
      ( "Internal Server Error").toList ( "application/json").toList
      ( "b").toList none).2.2.2.1 500 (by decide) (by decide) (by decide)
      (by decide) (by decide)).2.2,
   (C6_error_envelopes ( "/u").toList 30 ( "./s").toList ( "n").toList
      ( "Not Modified").toList ( "text/plain").toList ( "b").toList
      (some (Json.bool true))).2.2.2.2 304 (Json.bool true) (by decide)
      (by decide) (by decide) (by decide) (by decide)⟩

/-- A 4×4 test image. -/
def c7Image : ImageModel :=
  { width := 4, height := 4, pixel := fun x y => (x + y, 2 * x, 3) }

/-- The region-statistics result for a single region whose bounding box
is inverted (`x1 = 3 ≥ x2 = 1`). -/
def c7Result : AnalyzeResult :=
  analyze_image_regions ( "img.png").toList true (.ok c7Image)
    [{ name := some ( "r1").toList,
       bbox := [(x1Key, 3), (y1Key, 0), (x2Key, 1), (y2Key, 2)],
       metrics := some [avgLit] }]

/-- **C7** (corrected, counterexample). On an inverted bounding box the
region-statistics tool does not reject: the call returns success=true,
the region is marked valid with no error, and per-channel statistics are
computed over the silently clamped region. -/
theorem C7_counterexample :
    c7Result.success = true ∧
    (c7Result.data.lookup ( "r1").toList).map RegionEntry.valid = some true ∧
    (c7Result.data.lookup ( "r1").toList).map RegionEntry.error = some none ∧
    (match c7Result.data.lookup ( "r1").toList with
      | some e => e.channels.isSome
      | none => false) = true := by
  decide

/-- **C7** (corrected, amended claim). The average-RGB tool rejects a
missing-key bounding box and out-of-range or inverted coordinates before
any pixel processing, with success=false, a non-empty error and no data.
The region-statistics tool does not: a region missing a bbox key only
gets a per-region invalid marker while the overall call returns
success=true, and out-of-range or inverted coordinates are silently
clamped and processed, never rejected. -/
theorem C7_bbox_validation :
    (∀ (bbox : Option (List (Str × Int))) (image_path : Str)
        (pathExists : Bool) (opened : Except Str ImageModel),
      bboxMissing bbox = true →
      (compute_average_rgb bbox image_path pathExists opened).success = false ∧
      (compute_average_rgb bbox image_path pathExists opened).data = none ∧
      (compute_average_rgb bbox image_path pathExists opened).error ≠ []) ∧
    (∀ (b : List (Str × Int)) (image_path : Str) (img : ImageModel),
      bboxComplete b = true →
      invalidBBoxCoords ((b.lookup x1Key).getD 0) ((b.lookup y1Key).getD 0)
        ((b.lookup x2Key).getD 0) ((b.lookup y2Key).getD 0)
        (img.width : Int) (img.height : Int) = true →
      (compute_average_rgb (some b) image_path true (.ok img)).success = false ∧
      (compute_average_rgb (some b) image_path true (.ok img)).data = none ∧
      (compute_average_rgb (some b) image_path true (.ok img)).error ≠ []) ∧
    (∀ (image_path : Str) (img : ImageModel) (regions : List RegionSpec),
      (analyze_image_regions image_path true (.ok img) regions).success = true) ∧
    (∀ (img : ImageModel) (i : Nat) (region : RegionSpec),
      bboxComplete region.bbox = false →
      (processRegion img i region).2.valid = false ∧
      (processRegion img i region).2.error.isSome = true ∧
      (processRegion img i region).2.channels = none) ∧
    (∀ (img : ImageModel) (i : Nat) (region : RegionSpec),
      bboxComplete region.bbox = true →
      (processRegion img i region).2.valid = true ∧
      (processRegion img i region).2.error = none ∧
      (processRegion img i region).2.channels.isSome = true) := by
  refine ⟨?_, ?_, ?_, ?_, ?_⟩
  · intro bbox image_path pathExists opened hb
    by_cases hp : pathExists = false
    · simp [compute_average_rgb, hp]
    · simp [compute_average_rgb, hp, hb]
  · intro b image_path img hcomp hinv
    have hne : b.isEmpty = false := by
      cases b with
      | nil => simp [bboxComplete, List.lookup] at hcomp
      | cons kv rest => rfl
    have hmiss : bboxMissing (some b) = false := by
      simp [bboxMissing, hne, hcomp]
    simp [compute_average_rgb, hmiss, hinv]
  · intro image_path img regions
    simp [analyze_image_regions]
  · intro img i region hmiss
    simp [processRegion, hmiss]
  · intro img i region hcomp
    simp [processRegion, hcomp]

theorem C7_bbox_validation_witness :
    (compute_average_rgb
        (some [(x1Key, 5), (y1Key, 0), (x2Key, 2), (y2Key, 2)])
        ( "img.png").toList true (.ok c7Image)).success = false ∧
    (compute_average_rgb
        (some [(x1Key, 5), (y1Key, 0), (x2Key, 2), (y2Key, 2)])
        ( "img.png").toList true (.ok c7Image)).data = none ∧
    (processRegion c7Image 0
        { name := none, bbox := [(x1Key, 0)], metrics := none }).2.valid =
      false :=
  ⟨((C7_bbox_validation.2.1
      [(x1Key, 5), (y1Key, 0), (x2Key, 2), (y2Key, 2)]
      ( "img.png").toList c7Image (by decide) (by decide))).1,
   ((C7_bbox_validation.2.1
      [(x1Key, 5), (y1Key, 0), (x2Key, 2), (y2Key, 2)]
      ( "img.png").toList c7Image (by decide) (by decide))).2.1,
   (C7_bbox_validation.2.2.2.1 c7Image 0
      { name := none, bbox := [(x1Key, 0)], metrics := none } (by decide)).1⟩

theorem flatMapRange_length (f : Nat → Nat → Nat × Nat × Nat) (n m : Nat) :
    ((List.range n).flatMap fun dy =>
      (List.range m).map fun dx => f dx dy).length = n * m := by
  induction n with
  | zero => simp
  | succ k ih => simp [List.range_succ, ih, Nat.succ_mul]

theorem regionPixels_length (img : ImageModel) (x1 y1 x2 y2 : Nat) :
    (regionPixels img x1 y1 x2 y2).length = (y2 - y1) * (x2 - x1) :=
  flatMapRange_length (fun dx dy => img.pixel (x1 + dx) (y1 + dy)) _ _

/-- Each requested metric's field is populated. -/
def statsComplete (metrics : List Str) (c : ChannelStats) : Prop :=
  (metrics.contains avgLit = true → c.avg.isSome = true) ∧
  (metrics.contains stdLit = true → c.std.isSome = true) ∧
  (metrics.contains minLit = true → c.min.isSome = true) ∧
  (metrics.contains maxLit = true → c.max.isSome = true) ∧
  (metrics.contains medianLit = true → c.median.isSome = true) ∧
  (metrics.contains modeLit = true → c.mode.isSome = true)

theorem computeChannel_complete (metrics : List Str) (data : List Nat) :
    statsComplete metrics (computeChannel metrics data) := by
  refine ⟨?_, ?_, ?_, ?_, ?_, ?_⟩ <;> intro h <;>
    · have h' := h
      simp at h'
      simp [computeChannel, h']

/-- **C10** (confirmed). On an image of width and height at least 1,
every region whose bbox carries all four keys is clamped so that
`0 ≤ x1 < x2 ≤ w` and `0 ≤ y1 < y2 ≤ h` before extraction; the extracted
region is therefore non-empty, the region is reported valid with no
error, and every requested per-channel metric is populated — bad
coordinates are adjusted, never reported as errors. -/
theorem C10_clamping (img : ImageModel) (i : Nat) (region : RegionSpec)
    (hw : 1 ≤ img.width) (hh : 1 ≤ img.height)
    (hcomp : bboxComplete region.bbox = true) :
    ((processRegion img i region).2.valid = true ∧
      (processRegion img i region).2.error = none) ∧
    (∀ cx1 cy1 cx2 cy2 : Int,
      clampCoords ((region.bbox.lookup x1Key).getD 0)
          ((region.bbox.lookup y1Key).getD 0)
          ((region.bbox.lookup x2Key).getD 0)
          ((region.bbox.lookup y2Key).getD 0)
          (img.width : Int) (img.height : Int) = (cx1, cy1, cx2, cy2) →
      (processRegion img i region).2.bbox = some (cx1, cy1, cx2, cy2) ∧
      0 ≤ cx1 ∧ cx1 < cx2 ∧ cx2 ≤ (img.width : Int) ∧
      0 ≤ cy1 ∧ cy1 < cy2 ∧ cy2 ≤ (img.height : Int) ∧
      0 < (regionPixels img cx1.toNat cy1.toNat cx2.toNat cy2.toNat).length) ∧
    (∀ cs, (processRegion img i region).2.channels = some cs →
      statsComplete ((region.metrics.getD [avgLit]).filter
        (fun m => validMetrics.contains m)) cs.1 ∧
      statsComplete ((region.metrics.getD [avgLit]).filter
        (fun m => validMetrics.contains m)) cs.2.1 ∧
      statsComplete ((region.metrics.getD [avgLit]).filter
        (fun m => validMetrics.contains m)) cs.2.2) := by
  refine ⟨?_, ?_, ?_⟩
  · simp [processRegion, hcomp]
  · intro cx1 cy1 cx2 cy2 hc
    have hw' : (1 : Int) ≤ (img.width : Int) := by exact_mod_cast hw
    have hh' : (1 : Int) ≤ (img.height : Int) := by exact_mod_cast hh
    simp only [clampCoords, Prod.mk.injEq] at hc
    obtain ⟨h1, h2, h3, h4⟩ := hc
    rw [h1] at h3
    rw [h2] at h4
    have hx1lb : 0 ≤ cx1 := by rw [← h1]; exact le_max_left _ _
    have hx1ub : cx1 ≤ (img.width : Int) - 1 := by
      rw [← h1]
      exact max_le (by omega) (min_le_right _ _)
    have hy1lb : 0 ≤ cy1 := by rw [← h2]; exact le_max_left _ _
    have hy1ub : cy1 ≤ (img.height : Int) - 1 := by
      rw [← h2]
      exact max_le (by omega) (min_le_right _ _)
    have hx2lb : cx1 + 1 ≤ cx2 := by
      rw [← h3]
      exact le_max_left _ _
    have hx2ub : cx2 ≤ (img.width : Int) := by
      rw [← h3]
      exact max_le (by omega) (min_le_right _ _)
    have hy2lb : cy1 + 1 ≤ cy2 := by
      rw [← h4]
      exact le_max_left _ _
    have hy2ub : cy2 ≤ (img.height : Int) := by
      rw [← h4]
      exact max_le (by omega) (min_le_right _ _)
    refine ⟨?_, hx1lb, by omega, hx2ub, hy1lb, by omega, hy2ub, ?_⟩
    · simp [processRegion, hcomp, clampCoords, h1, h2, h3, h4]
    · rw [regionPixels_length]
      have : 1 ≤ cy2.toNat - cy1.toNat := by omega
      have : 1 ≤ cx2.toNat - cx1.toNat := by omega
      positivity
  · intro cs hcs
    simp only [processRegion, hcomp, Bool.true_eq_false, if_false,
      Option.some.injEq] at hcs
    rw [← hcs]
    exact ⟨computeChannel_complete _ _, computeChannel_complete _ _,
      computeChannel_complete _ _⟩

theorem C10_clamping_witness :
    ((processRegion c7Image 1
        { name := none,
          bbox := [(x1Key, -2), (y1Key, 9), (x2Key, -1), (y2Key, 0)],
          metrics := some validMetrics }).2.valid = true ∧
      (processRegion c7Image 1
        { name := none,
          bbox := [(x1Key, -2), (y1Key, 9), (x2Key, -1), (y2Key, 0)],
          metrics := some validMetrics }).2.error = none) :=
  (C10_clamping c7Image 1
    { name := none,
      bbox := [(x1Key, -2), (y1Key, 9), (x2Key, -1), (y2Key, 0)],
      metrics := some validMetrics }
    (by decide) (by decide) (by decide)).1

/-- **C8** (corrected, counterexample). The image-load tool raises: on a
missing path the registered `load_image` function terminates with the
re-raised `ValueError`, modelled as an error escaping the function
rather than an envelope being returned. -/
theorem C8_counterexample :
    load_image ( "missing.png").toList false (.ok { width := 1, height := 1 })
        none true =
      .error ( "Error loading or resizing image: Image file not found: missing.png").toList := by
  rfl

/-- **C8** (corrected, amended claim). The analysis tools and the HTTP
executor are total and, whenever they report failure, return an envelope
with success=false and a non-empty explanatory message (no data); but
the image-load tool signals every failure by raising `ValueError`, which
escapes the tool function instead of an envelope being returned. -/
theorem C8_tool_boundary :
    (∀ bbox image_path pathExists opened,
      (compute_average_rgb bbox image_path pathExists opened).success = false →
      (compute_average_rgb bbox image_path pathExists opened).error ≠ [] ∧
      (compute_average_rgb bbox image_path pathExists opened).data = none) ∧
    (∀ image_path pathExists opened regions,
      (analyze_image_regions image_path pathExists opened regions).success = false →
      (analyze_image_regions image_path pathExists opened regions).error ≠ []) ∧
    (∀ url timeout storage uuidName outcome, isFailureOutcome outcome = true →
      jsonField (make_api_request url timeout storage uuidName outcome)
          successKey = some (.bool false) ∧
      jsonHasField (make_api_request url timeout storage uuidName outcome)
          errorKey = true) ∧
    (∀ path opened resize_width mar,
      load_image path false opened resize_width mar =
        .error (( "Error loading or resizing image: Image file not found: ").toList
          ++ path)) := by
  refine ⟨?_, ?_, ?_, ?_⟩
  · intro bbox image_path pathExists opened h
    by_cases hp : pathExists = false
    · simp [compute_average_rgb, hp]
    by_cases hb : bboxMissing bbox = true
    · simp [compute_average_rgb, hp, hb]
    cases opened with
    | error e => simp [compute_average_rgb, hp, hb]
    | ok img =>
      by_cases hinv : invalidBBoxCoords
          (((bbox.getD []).lookup x1Key).getD 0)
          (((bbox.getD []).lookup y1Key).getD 0)
          (((bbox.getD []).lookup x2Key).getD 0)
          (((bbox.getD []).lookup y2Key).getD 0)
          (img.width : Int) (img.height : Int) = true
      · simp [compute_average_rgb, hp, hb, hinv]
      · exfalso
        simp [compute_average_rgb, hp, hb, hinv] at h
  · intro image_path pathExists opened regions h
    by_cases hp : pathExists = false
    · simp [analyze_image_regions, hp]
    cases opened with
    | error e => simp [analyze_image_regions, hp]
    | ok img =>
      exfalso
      simp [analyze_image_regions, hp] at h
  · intro url timeout storage uuidName outcome hfail
    exact ⟨(make_api_request_failure_fields url timeout storage uuidName
        outcome hfail).1,
      (make_api_request_failure_fields url timeout storage uuidName
        outcome hfail).2.1⟩
  · intro path opened resize_width mar
    simp [load_image]

theorem C8_tool_boundary_witness :
    (compute_average_rgb none ( "img.png").toList true
        (.ok { width := 1, height := 1, pixel := fun _ _ => (0, 0, 0) })).error ≠
      ([] : Str) ∧
    load_image ( "gone.png").toList false
        (.ok { width := 1, height := 1 }) none true =
      .error (( "Error loading or resizing image: Image file not found: ").toList
        ++ ( "gone.png").toList) :=
  ⟨(C8_tool_boundary.1 none ( "img.png").toList true
      (.ok { width := 1, height := 1, pixel := fun _ _ => (0, 0, 0) })
      (by decide)).1,
   C8_tool_boundary.2.2.2 ( "gone.png").toList
      (.ok { width := 1, height := 1 }) none true⟩

end OpenBridge
